import Mathlib

/-!
Shallow embedding of the rating-computation core of the Football Performance
Model (src/app.py).  All machine floats of the source are modelled as exact
rationals; every decimal literal of the source is an exact decimal fraction,
so the rational model computes the same values the float code is specified
to compute.  Definitions are transcribed from src/app.py; theorems settle
the frozen claims about the spec.
-/

namespace FootballRating

/-- Mistake classification of a logged action ("Mistake Type" column of the
Action Log tab, src/app.py line 409). -/
inductive MistakeType where
  | noMistake
  | typeA
  | typeB
  | typeC
deriving DecidableEq, Repr

/-- One logged action row of the Action Log tab: five sub-scores and a
mistake type (src/app.py lines 385-412). -/
structure Action where
  DQ : ℚ
  EQ : ℚ
  CD : ℚ
  TA : ℚ
  LOP : ℚ
  mistake : MistakeType
deriving DecidableEq, Repr

/-- Cap chosen by the if/elif chain of calculate_cav
(src/app.py lines 116-123): default 10.0, Type A 4.0, Type B 8.3,
Type C 7.0. -/
def mistakeCap : MistakeType → ℚ
  | MistakeType.noMistake => 10.0
  | MistakeType.typeA => 4.0
  | MistakeType.typeB => 8.3
  | MistakeType.typeC => 7.0

/-- Raw score of calculate_cav (src/app.py line 113):
(2·DQ + 2·EQ + 1.5·CD + 1.5·TA + 1·LOP) / 8. -/
def rawScore (a : Action) : ℚ :=
  (2 * a.DQ + 2 * a.EQ + 1.5 * a.CD + 1.5 * a.TA + 1 * a.LOP) / 8

/-- calculate_cav (src/app.py lines 109-125): min of the raw score and the
mistake cap. -/
def calculate_cav (a : Action) : ℚ :=
  min (rawScore a) (mistakeCap a.mistake)

/-- Mean of a list of rationals, as pandas Series.mean: sum divided by
length. -/
def listAvg (l : List ℚ) : ℚ := l.sum / l.length

/-- Match aggregate displayed by the Action Log tab: AQC (mean CAV) and HIS
(fraction of CAVs at least 7.0), src/app.py lines 434-440. -/
structure MatchAggregate where
  AQC : ℚ
  HIS : ℚ
deriving DecidableEq, Repr

/-- Aggregation of a match's CAV list, src/app.py lines 424-440: the tab
computes aggregates only inside the branch `if not edited_df.empty`, so on
an empty action list no aggregate value exists (modelled as none). -/
def aggregateMatch (cavs : List ℚ) : Option MatchAggregate :=
  if cavs = [] then Option.none
  else Option.some
    ⟨listAvg cavs,
     ((cavs.filter fun c => (7.0 : ℚ) ≤ c).length : ℚ) / cavs.length⟩

/-- One row of the role preset table: the five weights of a role. -/
structure RoleWeights where
  wAQC : ℚ
  wHIS : ℚ
  wEC : ℚ
  wTII : ℚ
  wIBI : ℚ
deriving DecidableEq, Repr

/-- The five built-in roles of the ROLE_WEIGHTS table. -/
inductive Role where
  | cfStriker
  | winger
  | am10
  | cm8
  | dm6
deriving DecidableEq, Repr

/-- ROLE_WEIGHTS (src/app.py lines 100-106), row by row. -/
def ROLE_WEIGHTS : Role → RoleWeights
  | Role.cfStriker => ⟨0.15, 0.35, 0.10, 0.10, 0.30⟩
  | Role.winger => ⟨0.20, 0.30, 0.15, 0.10, 0.25⟩
  | Role.am10 => ⟨0.25, 0.25, 0.15, 0.15, 0.20⟩
  | Role.cm8 => ⟨0.30, 0.15, 0.30, 0.20, 0.05⟩
  | Role.dm6 => ⟨0.35, 0.10, 0.35, 0.25, 0.00⟩

/-- Sum of the five weights of a role row. -/
def weightSum (w : RoleWeights) : ℚ :=
  w.wAQC + w.wHIS + w.wEC + w.wTII + w.wIBI

/-- The five metric inputs shared by the rating formulas: AQC on a [1,10]
scale, HIS, EC, TII, IBI on a [0,100] scale (src/app.py lines 499-503). -/
structure RatingInputs where
  AQC : ℚ
  HIS : ℚ
  EC : ℚ
  TII : ℚ
  IBI : ℚ
deriving DecidableEq, Repr

/-- raw_mpr_val, the role-neutral MPR of the Match Rating tab
(src/app.py lines 533-539). -/
def raw_mpr_val (i : RatingInputs) (sci om pIdx : ℚ) : ℚ :=
  (60 * (i.AQC / 10) +
   15 * (i.HIS / 100) +
   10 * ((i.EC / 100) * sci) +
   8 * (i.TII / 100) +
   6 * (i.IBI / 100)) * om * pIdx

/-- weighted_mpr_val, the role-weighted MPR of the Match Rating tab
(src/app.py lines 543-552): AQC is rescaled to 0-100, EC is multiplied by
SCI, and the weighted sum is multiplied by OM and PI. -/
def weighted_mpr_val (w : RoleWeights) (i : RatingInputs) (sci om pIdx : ℚ) : ℚ :=
  (w.wAQC * (i.AQC * 10) +
   w.wHIS * i.HIS +
   w.wEC * (i.EC * sci) +
   w.wTII * i.TII +
   w.wIBI * i.IBI) * om * pIdx

/-- mpr_value, the Weighted MPR computed and saved by the MPR History tab
(src/app.py lines 656-665): the weighted sum (with no SCI factor on EC) is
multiplied by OM only, with no PI factor. -/
def mpr_value (w : RoleWeights) (i : RatingInputs) (om : ℚ) : ℚ :=
  (w.wAQC * (i.AQC * 10) +
   w.wHIS * i.HIS +
   w.wEC * i.EC +
   w.wTII * i.TII +
   w.wIBI * i.IBI) * om

/-- The spec's Weighted MPR formula, transcribed from the spec's words
(section 4.4) for comparison with the two code paths:
WeightedMPR = (wAQC·AQC_n + wHIS·HIS + wEC·(EC·SCI) + wTII·TII + wIBI·IBI)
· OM · PI with AQC_n = AQC·10. -/
def specWeightedMPR (w : RoleWeights) (i : RatingInputs) (sci om pIdx : ℚ) : ℚ :=
  (w.wAQC * (i.AQC * 10) +
   w.wHIS * i.HIS +
   w.wEC * (i.EC * sci) +
   w.wTII * i.TII +
   w.wIBI * i.IBI) * om * pIdx

/-- repeatability of the Season tab (src/app.py lines 975-977): percentage
of MPR records of value at least 70, guarded by a positive count. -/
def repeatability (l : List ℚ) : ℚ :=
  if 0 < l.length then
    (((l.filter fun m => (70 : ℚ) ≤ m).length : ℚ) / l.length) * 100
  else 0

/-- peak5 of the Season tab (src/app.py line 978), mirroring
DataFrame.nlargest(5, 'MPR').mean(): mean of the first five values of the
list sorted in descending order. -/
def peak5 (l : List ℚ) : ℚ :=
  listAvg ((List.insertionSort (fun a b : ℚ => b ≤ a) l).take 5)

/-- csr_score (src/app.py line 998):
0.45·avg_mpr + 0.20·repeatability + 0.15·role_transfer + 0.20·peak5. -/
def csr_score (l : List ℚ) (roleTransfer : ℚ) : ℚ :=
  0.45 * listAvg l + 0.20 * repeatability l +
    0.15 * roleTransfer + 0.20 * peak5 l

/-- Season evaluation of the Season tab (src/app.py lines 964-998): the CSR
is computed only in the else-branch of the empty-history guard, so on an
empty MPR history no CSR value exists (modelled as none). -/
def computeCSR (l : List ℚ) (roleTransfer : ℚ) : Option ℚ :=
  if l = [] then Option.none
  else Option.some (csr_score l roleTransfer)

/-- One stats record of the Player Stats tab (src/app.py lines 822-834);
all count fields are non-negative integers, as entered through
number_input widgets with minimum 0. -/
structure StatsRecord where
  goals : ℕ
  assists : ℕ
  bcc : ℕ
  dribbles : ℕ
  teamGoals : ℕ
  clutchGA : ℕ
  teamClutchGA : ℕ
deriving DecidableEq, Repr

/-- Outcome modifier resolution of the Match Rating and MPR History tabs
(src/app.py lines 509-521 and 626-638): the stats dictionary is a partial
map from key strings to records; when the key is present the OM is
1.0 + goals·0.1 + assists·0.05 capped at 1.5, otherwise the default 1.0
stands. -/
def resolveOM (stats : String → Option StatsRecord) (key : String) : ℚ :=
  match stats key with
  | Option.some r => min (1.0 + (r.goals : ℚ) * 0.1 + (r.assists : ℚ) * 0.05) 1.5
  | Option.none => 1.0

/-- Context of a stats record: a match id or a tournament name
(src/app.py lines 743, 814-819). -/
inductive StatsContext where
  | ofMatch (id : ℕ)
  | ofTournament (name : String)
deriving DecidableEq, Repr

/-- stats_key construction (src/app.py lines 815-819, also 513 and 631):
the player name concatenated with "_m_" and the match id, or with "_t_"
and the tournament name. -/
def stats_key (player : String) : StatsContext → String
  | StatsContext.ofMatch id => player ++ "_m_" ++ toString id
  | StatsContext.ofTournament name => player ++ "_t_" ++ name

/-- Saving a stats record (src/app.py line 822): dictionary assignment at
the constructed key, overwriting any record already stored there. -/
def saveStats (stats : String → Option StatsRecord) (key : String)
    (r : StatsRecord) : String → Option StatsRecord :=
  fun k => if k = key then Option.some r else stats k

/-- Concrete stats dictionary used to witness the outcome-modifier
theorem: one record with 2 goals and 1 assist under the key of player
Alice in match 1. -/
def omExampleTable : String → Option StatsRecord :=
  fun k => if k = "Alice_m_1" then Option.some ⟨2, 1, 0, 0, 0, 0, 0⟩
    else Option.none

/-- C3: for every Action with its five sub-scores and a mistake type,
calculate_cav returns min(raw, cap) where
raw = (2·DQ + 2·EQ + 1.5·CD + 1.5·TA + 1·LOP)/8 and the cap is 10.0 for no
mistake, 4.0 for Type A, 8.3 for Type B and 7.0 for Type C. -/
theorem calculate_cav_formula (a : Action) :
    calculate_cav a =
      min ((2 * a.DQ + 2 * a.EQ + 1.5 * a.CD + 1.5 * a.TA + 1 * a.LOP) / 8)
        (match a.mistake with
          | MistakeType.noMistake => (10.0 : ℚ)
          | MistakeType.typeA => 4.0
          | MistakeType.typeB => 8.3
          | MistakeType.typeC => 7.0) := by
  rcases a with ⟨dq, eq, cd, ta, lop, m⟩
  cases m <;> rfl

/-- C4: the role-neutral rating raw_mpr_val equals
(60·(AQC/10) + 15·(HIS/100) + 10·((EC/100)·SCI) + 8·(TII/100) +
6·(IBI/100))·OM·PI for all inputs, and at AQC=10, HIS=EC=TII=IBI=100,
SCI=OM=PI=1 it equals 99.0. -/
theorem raw_mpr_spec :
    (∀ (i : RatingInputs) (sci om pIdx : ℚ),
      raw_mpr_val i sci om pIdx =
        (60 * (i.AQC / 10) + 15 * (i.HIS / 100) + 10 * ((i.EC / 100) * sci) +
          8 * (i.TII / 100) + 6 * (i.IBI / 100)) * om * pIdx) ∧
    raw_mpr_val ⟨10, 100, 100, 100, 100⟩ 1.0 1.0 1.0 = 99.0 :=
  ⟨fun _ _ _ _ => rfl, by norm_num [raw_mpr_val]⟩

/-- C7: on an empty action list the Match Aggregator yields no aggregate,
and on an empty MPR history the Season Evaluator yields no CSR; neither
returns the numeric value 0.0 for absent data. -/
theorem empty_input_undefined :
    aggregateMatch [] = Option.none ∧
    ∀ roleTransfer : ℚ, computeCSR [] roleTransfer = Option.none :=
  ⟨rfl, fun _ => rfl⟩

/-- C8: on a non-empty CAV list the Match Aggregator returns AQC equal to
the arithmetic mean of the CAVs and HIS equal to the count of CAVs at
least 7.0 divided by the total count; on [4, 8, 9] it returns AQC = 7.0
and HIS = 2/3. -/
theorem aggregateMatch_nonempty_spec (cavs : List ℚ) (h : cavs ≠ []) :
    aggregateMatch cavs =
      Option.some ⟨cavs.sum / cavs.length,
        ((cavs.filter fun c => (7.0 : ℚ) ≤ c).length : ℚ) / cavs.length⟩ ∧
    aggregateMatch [4, 8, 9] = Option.some ⟨7.0, 2 / 3⟩ := by
  constructor
  · simp [aggregateMatch, listAvg, h]
  · unfold aggregateMatch
    rw [if_neg (show ¬([4, 8, 9] : List ℚ) = [] by simp)]
    norm_num [listAvg, List.filter]

/-- C8 witness: the general aggregate formula and the concrete example,
instantiated at the list [4, 8, 9]. -/
theorem aggregateMatch_nonempty_spec_witness :
    aggregateMatch [4, 8, 9] =
      Option.some ⟨([4, 8, 9] : List ℚ).sum / ([4, 8, 9] : List ℚ).length,
        ((([4, 8, 9] : List ℚ).filter fun c => (7.0 : ℚ) ≤ c).length : ℚ) /
          ([4, 8, 9] : List ℚ).length⟩ ∧
    aggregateMatch [4, 8, 9] = Option.some ⟨7.0, 2 / 3⟩ :=
  aggregateMatch_nonempty_spec [4, 8, 9] (by decide)

/-- C1 counterexample: the weights of role DM / 6 sum to 1.05, which
differs from 1.0 by more than the claimed 1e-9 tolerance. -/
theorem dm6_weight_sum_breaks_tolerance :
    (1e-9 : ℚ) < |weightSum (ROLE_WEIGHTS Role.dm6) - 1.0| := by
  have h : weightSum (ROLE_WEIGHTS Role.dm6) = 1.05 := by
    norm_num [weightSum, ROLE_WEIGHTS]
  rw [h, show (1.05 : ℚ) - 1.0 = 0.05 by norm_num,
    abs_of_pos (by norm_num : (0 : ℚ) < 0.05)]
  norm_num

/-- C1 amended: the five weights sum to exactly 1.0 for the roles
CF / Striker, Winger, AM / 10 and CM / 8, and to 1.05 for DM / 6 (these
five constructors exhaust the Role type). -/
theorem roleWeights_sum_values :
    weightSum (ROLE_WEIGHTS Role.cfStriker) = 1.0 ∧
    weightSum (ROLE_WEIGHTS Role.winger) = 1.0 ∧
    weightSum (ROLE_WEIGHTS Role.am10) = 1.0 ∧
    weightSum (ROLE_WEIGHTS Role.cm8) = 1.0 ∧
    weightSum (ROLE_WEIGHTS Role.dm6) = 1.05 := by
  refine ⟨?_, ?_, ?_, ?_, ?_⟩ <;> norm_num [weightSum, ROLE_WEIGHTS]

/-- C2 counterexample: at in-range inputs (AQC=10, HIS=EC=TII=IBI=100,
OM=1, SCI=1.08, PI=1.5) the Weighted MPR saved by the MPR History tab is
100, not the 151.2 demanded by the spec formula with the SCI factor on EC
and the PI multiplier. -/
theorem mpr_value_omits_sci_pi :
    mpr_value (ROLE_WEIGHTS Role.cfStriker) ⟨10, 100, 100, 100, 100⟩ 1.0 ≠
      specWeightedMPR (ROLE_WEIGHTS Role.cfStriker) ⟨10, 100, 100, 100, 100⟩
        1.08 1.0 1.5 := by
  norm_num [mpr_value, specWeightedMPR, ROLE_WEIGHTS]

/-- C2 amended: the Match Rating tab's Weighted MPR equals the spec
formula (wAQC·(AQC·10) + wHIS·HIS + wEC·(EC·SCI) + wTII·TII +
wIBI·IBI)·OM·PI for all inputs, while the MPR History tab's saved rating
takes no SCI or PI input and equals that formula with SCI = 1 and
PI = 1. -/
theorem weighted_mpr_paths_spec :
    (∀ (w : RoleWeights) (i : RatingInputs) (sci om pIdx : ℚ),
      weighted_mpr_val w i sci om pIdx = specWeightedMPR w i sci om pIdx) ∧
    ∀ (w : RoleWeights) (i : RatingInputs) (om : ℚ),
      mpr_value w i om = specWeightedMPR w i 1.0 om 1.0 := by
  refine ⟨fun _ _ _ _ _ => rfl, fun w i om => ?_⟩
  unfold mpr_value specWeightedMPR
  ring

/-- C10: the string-based stats-key construction is not injective — player
Alice with tournament "t_B" and player "Alice_t" with tournament "B" are
distinct (player, context) pairs with the same key string, so saving a
record for the first overwrites the record of the second. -/
theorem stats_key_collision :
    stats_key "Alice" (StatsContext.ofTournament "t_B") =
      stats_key "Alice_t" (StatsContext.ofTournament "B") ∧
    ("Alice", StatsContext.ofTournament "t_B") ≠
      ("Alice_t", StatsContext.ofTournament "B") ∧
    ∀ (stats : String → Option StatsRecord) (r : StatsRecord),
      saveStats stats (stats_key "Alice" (StatsContext.ofTournament "t_B")) r
        (stats_key "Alice_t" (StatsContext.ofTournament "B")) =
        Option.some r := by
  refine ⟨by decide, by decide, fun stats r => ?_⟩
  unfold saveStats
  rw [if_pos (show stats_key "Alice_t" (StatsContext.ofTournament "B") =
    stats_key "Alice" (StatsContext.ofTournament "t_B") by decide)]

/-- C5: on a non-empty MPR history the season rating equals
0.45·avgMPR + 0.20·repeatability + 0.20·peak5 + 0.15·roleTransfer, where
avgMPR is the mean of all MPR values, repeatability is
100·count(MPR ≥ 70)/count(all), and peak5 — the mean of the five largest
MPR values — equals the mean of all values when fewer than five records
exist. -/
theorem csr_score_spec (l : List ℚ) (roleTransfer : ℚ) (h : l ≠ []) :
    csr_score l roleTransfer =
      0.45 * (l.sum / l.length) +
      0.20 * (100 * ((l.filter fun m => (70 : ℚ) ≤ m).length : ℚ) / l.length) +
      0.20 * peak5 l + 0.15 * roleTransfer ∧
    (l.length < 5 → peak5 l = l.sum / l.length) := by
  have hlen : 0 < l.length := List.length_pos.mpr h
  constructor
  · unfold csr_score listAvg repeatability
    rw [if_pos hlen]
    ring
  · intro h5
    unfold peak5 listAvg
    have hlen' : (List.insertionSort (fun a b : ℚ => b ≤ a) l).length = l.length :=
      List.length_insertionSort _ _
    rw [List.take_of_length_le (by rw [hlen']; omega)]
    rw [(List.perm_insertionSort _ l).sum_eq, hlen']

/-- C5 witness: the season-rating formula instantiated at the history
[60, 70, 80] with role transferability 70. -/
theorem csr_score_spec_witness :
    csr_score [60, 70, 80] 70 =
      0.45 * (([60, 70, 80] : List ℚ).sum / ([60, 70, 80] : List ℚ).length) +
      0.20 * (100 *
        ((([60, 70, 80] : List ℚ).filter fun m => (70 : ℚ) ≤ m).length : ℚ) /
        ([60, 70, 80] : List ℚ).length) +
      0.20 * peak5 [60, 70, 80] + 0.15 * 70 ∧
    (([60, 70, 80] : List ℚ).length < 5 →
      peak5 [60, 70, 80] =
        ([60, 70, 80] : List ℚ).sum / ([60, 70, 80] : List ℚ).length) :=
  csr_score_spec [60, 70, 80] 70 (by simp)

/-- C6: when a stats record exists for the key, the resolved outcome
modifier is min(1.0 + 0.1·goals + 0.05·assists, 1.5) and lies in
[1.0, 1.5]; when no record exists for the key, the resolved OM is 1.0. -/
theorem resolveOM_spec (stats : String → Option StatsRecord) (key : String) :
    (∀ r : StatsRecord, stats key = Option.some r →
      resolveOM stats key =
        min (1.0 + 0.1 * (r.goals : ℚ) + 0.05 * (r.assists : ℚ)) 1.5 ∧
      1 ≤ resolveOM stats key ∧ resolveOM stats key ≤ 1.5) ∧
    (stats key = Option.none → resolveOM stats key = 1.0) := by
  constructor
  · intro r hr
    have hval : resolveOM stats key =
        min (1.0 + (r.goals : ℚ) * 0.1 + (r.assists : ℚ) * 0.05) 1.5 := by
      unfold resolveOM
      rw [hr]
    have hg : (0 : ℚ) ≤ (r.goals : ℚ) * 0.1 :=
      mul_nonneg (Nat.cast_nonneg _) (by norm_num)
    have ha : (0 : ℚ) ≤ (r.assists : ℚ) * 0.05 :=
      mul_nonneg (Nat.cast_nonneg _) (by norm_num)
    refine ⟨?_, ?_, ?_⟩
    · rw [hval]
      congr 1
      ring
    · rw [hval]
      exact le_min (by linarith) (by norm_num)
    · rw [hval]
      exact min_le_right _ _
  · intro h
    unfold resolveOM
    rw [h]

/-- C6 witness: the resolver applied to a table holding one record with
2 goals and 1 assist under the key of Alice in match 1, and to an empty
table. -/
theorem resolveOM_spec_witness :
    resolveOM omExampleTable "Alice_m_1" =
      min (1.0 + 0.1 * ((2 : ℕ) : ℚ) + 0.05 * ((1 : ℕ) : ℚ)) 1.5 ∧
    1 ≤ resolveOM omExampleTable "Alice_m_1" ∧
    resolveOM omExampleTable "Alice_m_1" ≤ 1.5 ∧
    resolveOM (fun _ => Option.none) "Bob" = 1.0 := by
  have h := (resolveOM_spec omExampleTable "Alice_m_1").1
    ⟨2, 1, 0, 0, 0, 0, 0⟩ (by decide)
  exact ⟨h.1, h.2.1, h.2.2, (resolveOM_spec (fun _ => Option.none) "Bob").2 rfl⟩

/-- C9: for every action whose five sub-scores lie in [1,10], the scored
CAV lies in [1, min(10, cap)], it is at most 4.0 for Type A, 8.3 for
Type B, 7.0 for Type C and 10.0 always, and it equals the raw score
exactly when the raw score is at most the cap. -/
theorem calculate_cav_bounds (a : Action)
    (hDQl : 1 ≤ a.DQ) (hDQu : a.DQ ≤ 10) (hEQl : 1 ≤ a.EQ) (hEQu : a.EQ ≤ 10)
    (hCDl : 1 ≤ a.CD) (hCDu : a.CD ≤ 10) (hTAl : 1 ≤ a.TA) (hTAu : a.TA ≤ 10)
    (hLOPl : 1 ≤ a.LOP) (hLOPu : a.LOP ≤ 10) :
    1 ≤ calculate_cav a ∧
    calculate_cav a ≤ min 10 (mistakeCap a.mistake) ∧
    (a.mistake = MistakeType.typeA → calculate_cav a ≤ 4.0) ∧
    (a.mistake = MistakeType.typeB → calculate_cav a ≤ 8.3) ∧
    (a.mistake = MistakeType.typeC → calculate_cav a ≤ 7.0) ∧
    calculate_cav a ≤ 10 ∧
    (rawScore a ≤ mistakeCap a.mistake → calculate_cav a = rawScore a) := by
  have hdef : calculate_cav a = min (rawScore a) (mistakeCap a.mistake) := rfl
  have hraw1 : 1 ≤ rawScore a := by
    unfold rawScore
    linarith
  have hraw10 : rawScore a ≤ 10 := by
    unfold rawScore
    linarith
  have hcap1 : 1 ≤ mistakeCap a.mistake := by
    cases a.mistake <;> norm_num [mistakeCap]
  have hle_cap : calculate_cav a ≤ mistakeCap a.mistake := by
    rw [hdef]
    exact min_le_right _ _
  have hle_raw : calculate_cav a ≤ rawScore a := by
    rw [hdef]
    exact min_le_left _ _
  have hle10 : calculate_cav a ≤ 10 := hle_raw.trans hraw10
  refine ⟨by rw [hdef]; exact le_min hraw1 hcap1, le_min hle10 hle_cap,
    ?_, ?_, ?_, hle10, fun hrc => by rw [hdef]; exact min_eq_left hrc⟩
  · intro hm
    have hc := hle_cap
    rw [hm] at hc
    simpa [mistakeCap] using hc
  · intro hm
    have hc := hle_cap
    rw [hm] at hc
    simpa [mistakeCap] using hc
  · intro hm
    have hc := hle_cap
    rw [hm] at hc
    simpa [mistakeCap] using hc

/-- C9 witness: the bounds instantiated at the action with all sub-scores
10 and a Type A mistake, whose raw score 10 is capped down to 4.0. -/
theorem calculate_cav_bounds_witness :
    1 ≤ calculate_cav ⟨10, 10, 10, 10, 10, MistakeType.typeA⟩ ∧
    calculate_cav ⟨10, 10, 10, 10, 10, MistakeType.typeA⟩ ≤
      min 10 (mistakeCap MistakeType.typeA) ∧
    (MistakeType.typeA = MistakeType.typeA →
      calculate_cav ⟨10, 10, 10, 10, 10, MistakeType.typeA⟩ ≤ 4.0) ∧
    (MistakeType.typeA = MistakeType.typeB →
      calculate_cav ⟨10, 10, 10, 10, 10, MistakeType.typeA⟩ ≤ 8.3) ∧
    (MistakeType.typeA = MistakeType.typeC →
      calculate_cav ⟨10, 10, 10, 10, 10, MistakeType.typeA⟩ ≤ 7.0) ∧
    calculate_cav ⟨10, 10, 10, 10, 10, MistakeType.typeA⟩ ≤ 10 ∧
    (rawScore ⟨10, 10, 10, 10, 10, MistakeType.typeA⟩ ≤
        mistakeCap MistakeType.typeA →
      calculate_cav ⟨10, 10, 10, 10, 10, MistakeType.typeA⟩ =
        rawScore ⟨10, 10, 10, 10, 10, MistakeType.typeA⟩) :=
  calculate_cav_bounds ⟨10, 10, 10, 10, 10, MistakeType.typeA⟩
    (by norm_num : (1 : ℚ) ≤ 10) (by norm_num : (10 : ℚ) ≤ 10)
    (by norm_num : (1 : ℚ) ≤ 10) (by norm_num : (10 : ℚ) ≤ 10)
    (by norm_num : (1 : ℚ) ≤ 10) (by norm_num : (10 : ℚ) ≤ 10)
    (by norm_num : (1 : ℚ) ≤ 10) (by norm_num : (10 : ℚ) ≤ 10)
    (by norm_num : (1 : ℚ) ≤ 10) (by norm_num : (10 : ℚ) ≤ 10)

end FootballRating
